import Mathlib

/-!
Verification of go-search-replace: the `validate` / `replace` adapter of
`lib/index.js`.

A shallow embedding of the two exported functions of `lib/index.js`.

* JavaScript values are a small inductive type; an object carries its identity,
  its prototype chain (so that `instanceof` is a lookup in the chain) and what a
  call of its `pipe` method does.
* The side effects of the module (`console.error`, `spawn`, `.on`, `.pipe`,
  `process.exit`) are recorded, in program order, in the trace of a `World`.
* A computation is a function from a `World` to a `Result`: it returns a value,
  or the hosting process exits with a status, or an exception is thrown. The
  module has no `try`, so an exception thrown by a runtime call leaves `replace`.
-/

namespace GoSearchReplace

/-! ## Values -/

/-- An error value, thrown or handed to an `error` listener; `toString` is the
string its `toString()` method returns. -/
structure JSError where
  toString : String
  deriving DecidableEq

/-- What a call `obj.pipe( destination )` does on an object: it returns (as
`Readable.prototype.pipe` does on a constructed stream), or it throws (no
callable `pipe`, a stream object whose constructor never ran, an overriding
method that throws). -/
inductive PipeMethod where
  | returns
  | throws (err : JSError)
  deriving DecidableEq

/-- A JavaScript value. Objects carry an identity, the names of the
constructors on their prototype chain, nearest first, and the behaviour of
their `pipe` method. -/
inductive JSValue where
  | undefined
  | null
  | boolean (b : Bool)
  | number (n : Int)
  | string (s : String)
  | array (items : List JSValue)
  | object (id : Nat) (protoChain : List String) (pipeMethod : PipeMethod)

/-- Prototype chain of a `stream.Readable`. -/
def readableChain : List String := ["Readable", "Stream", "EventEmitter", "Object"]

/-- Prototype chain of a `stream.Writable`. -/
def writableChain : List String := ["Writable", "Stream", "EventEmitter", "Object"]

/-- Prototype chain of a `net.Socket`, the class of the piped standard streams
of a child process. -/
def socketChain : List String :=
  ["Socket", "Duplex", "Readable", "Stream", "EventEmitter", "Object"]

/-- Prototype chain of a `Set`. -/
def setChain : List String := ["Set", "Object"]

/-- The expression `v instanceof stream.Readable`: false on primitives (and on
arrays, whose chain is `Array`, `Object`), a chain lookup on objects. -/
def instanceofReadable : JSValue → Bool
  | .object _ protoChain _ => protoChain.contains "Readable"
  | _ => false

/-- The expression `Array.isArray( v )`. -/
def isArray : JSValue → Bool
  | .array _ => true
  | _ => false

/-- The error thrown by a call `v.pipe( ... )`, if it throws: the error of the
object, and a `TypeError` on every value that is not an object with a callable
`pipe`. -/
def pipeError : JSValue → Option JSError
  | .object _ _ .returns => none
  | .object _ _ (.throws err) => some err
  | _ => some ⟨"TypeError: streamObj.pipe is not a function"⟩

/-- Whether a value is a string holding the character of code 0. -/
def hasNullByte : JSValue → Bool
  | .string s => s.toList.contains (Char.ofNat 0)
  | _ => false

/-- The error `spawn` throws while it checks its `args` argument, if any: a
primitive is not accepted as `args`, and no string of the list may hold the
character of code 0. -/
def spawnArgsError : JSValue → Option JSError
  | .array items =>
    if items.any hasNullByte then
      some ⟨"TypeError [ERR_INVALID_ARG_VALUE]: args must be strings without null bytes"⟩
    else none
  | .undefined => none
  | .null => none
  | .object _ _ _ => none
  | _ => some ⟨"TypeError [ERR_INVALID_ARG_TYPE]: args must be of type object"⟩

/-! ## Effects and the world -/

/-- One entry of the `stdio` option of `spawn`. -/
inductive StdioOption where
  | pipe
  | processStderr
  deriving DecidableEq

/-- The function values the module creates. The only one is the arrow function
that `replace` passes to `replaceProcess.on( 'error', ... )`. -/
inductive Listener where
  | replaceProcessError
  deriving DecidableEq

/-- A child process handle: its identity and the values of its `stdin` and
`stdout` properties. -/
structure ChildProcess where
  id : Nat
  stdin : JSValue
  stdout : JSValue

/-- An observable side effect. A `spawn` entry records a call that returned and
the handle it produced; a `pipe` entry records a call that returned. -/
inductive Effect where
  | consoleError (msg : String)
  | spawn (command : String) (args : JSValue) (stdio : List StdioOption)
      (child : ChildProcess)
  | on (emitter : Nat) (event : String) (listener : Listener)
  | pipe (source : JSValue) (destination : JSValue)
  | processExit (code : Nat)

/-- Whether the effect is a `spawn`. -/
def Effect.isSpawn : Effect → Bool
  | .spawn _ _ _ _ => true
  | _ => false

/-- Whether the effect is a `.pipe( ... )` call. -/
def Effect.isPipe : Effect → Bool
  | .pipe _ _ => true
  | _ => false

/-- Whether the effect is a `console.error`. -/
def Effect.isConsoleError : Effect → Bool
  | .consoleError _ => true
  | _ => false

/-- Whether the effect is a listener registration. -/
def Effect.isOn : Effect → Bool
  | .on _ _ _ => true
  | _ => false

/-- A way in which the operating system makes `spawn` fail at once, whatever
the arguments: `spawn` throws the error (for instance `E2BIG`), or, when the
file table is full (`EMFILE`, `ENFILE`), it returns a handle without streams.
A failure to launch that is reported later, through the `error` event (for
instance `ENOENT`), is not one of these. -/
inductive SpawnFault where
  | throws (err : JSError)
  | noStreams

/-- The state of the hosting process: the next unused object identity, the
effects performed so far, oldest first, and the fault a process creation meets
in this environment, if any. -/
structure World where
  nextId : Nat
  trace : List Effect
  spawnFault : Option SpawnFault := none

/-- The world after one more effect. -/
def World.emit (w : World) (e : Effect) : World :=
  { w with trace := w.trace ++ [e] }

/-- A value exists in a world when it is a primitive or an array, or an object
whose identity has already been handed out. -/
def JSValue.existsIn : JSValue → World → Bool
  | .object id _ _, w => decide (id < w.nextId)
  | _, _ => true

/-- Outcome of a computation: a returned value, the exit of the hosting
process, or a thrown exception. -/
inductive Result (α : Type) where
  | ok (value : α) (world : World)
  | exit (code : Nat) (world : World)
  | throw (err : JSError) (world : World)

/-- The world in which a computation stopped. -/
def Result.world {α : Type} : Result α → World
  | .ok _ w => w
  | .exit _ w => w
  | .throw _ w => w

/-- The returned value, if the computation returned. -/
def Result.value? {α : Type} : Result α → Option α
  | .ok v _ => some v
  | _ => none

/-- The exit status, if the process exited. -/
def Result.exitCode? {α : Type} : Result α → Option Nat
  | .exit c _ => some c
  | _ => none

/-- The exception, if one was thrown. -/
def Result.thrown? {α : Type} : Result α → Option JSError
  | .throw err _ => some err
  | _ => none

/-- A computation of the module. -/
def JS (α : Type) : Type := World → Result α

/-- The effects a computation performs when started in world `w`: what it
appends to the trace. -/
def effectsOf {α : Type} (m : JS α) (w : World) : List Effect :=
  (m w).world.trace.drop w.trace.length

/-- Sequencing: the rest of the program runs only if the process has not
exited and nothing was thrown. -/
def JS.bind {α β : Type} (m : JS α) (f : α → JS β) : JS β := fun w =>
  match m w with
  | .ok a w1 => f a w1
  | .exit c w1 => .exit c w1
  | .throw err w1 => .throw err w1

instance : Monad JS where
  pure a := fun w => .ok a w
  bind := JS.bind

/-! ## Runtime primitives used by the module -/

/-- The call `console.error( msg )`. -/
def consoleError (msg : String) : JS Unit := fun w =>
  .ok () (w.emit (.consoleError msg))

/-- The call `process.exit( code )`: it does not return. -/
def processExit (code : Nat) : JS Unit := fun w =>
  .exit code (w.emit (.processExit code))

/-- The call `spawn( command, args, { stdio } )` of the Node module
`child_process`, which is not part of the package. It throws when `args` is
refused or when the environment makes it throw, and then nothing is created.
Otherwise it returns a new handle, with a new `net.Socket` as `stdin` (resp.
`stdout`) when the first (resp. second) `stdio` entry is the string `pipe`,
and `null` otherwise; when the file table is full the handle has no streams.
The test `returns an instance of readable stream` of the package relies on the
socket being a `Readable`. -/
def spawn (command : String) (args : JSValue) (stdio : List StdioOption) :
    JS ChildProcess := fun w =>
  match spawnArgsError args with
  | some err => .throw err w
  | none =>
    match w.spawnFault with
    | some (.throws err) => .throw err w
    | some .noStreams =>
      let child : ChildProcess := { id := w.nextId, stdin := .undefined, stdout := .undefined }
      .ok child
        { w with nextId := w.nextId + 1
                 trace := w.trace ++ [.spawn command args stdio child] }
    | none =>
      let child : ChildProcess :=
        { id := w.nextId
          stdin :=
            if stdio.get? 0 = some .pipe then .object (w.nextId + 1) socketChain .returns
            else .null
          stdout :=
            if stdio.get? 1 = some .pipe then .object (w.nextId + 2) socketChain .returns
            else .null }
      .ok child
        { w with nextId := w.nextId + 3
                 trace := w.trace ++ [.spawn command args stdio child] }

/-- The call `emitter.on( event, listener )` on a child process handle. -/
def ChildProcess.on (child : ChildProcess) (event : String) (listener : Listener) :
    JS Unit := fun w =>
  .ok () (w.emit (.on child.id event listener))

/-- The call `source.pipe( destination )`: it throws what the `pipe` method of
the source throws, and a `TypeError` when the destination is not an object;
otherwise it returns. -/
def pipe (source destination : JSValue) : JS Unit := fun w =>
  match pipeError source with
  | some err => .throw err w
  | none =>
    match destination with
    | .object _ _ _ => .ok () (w.emit (.pipe source destination))
    | _ => .throw ⟨"TypeError: Cannot read properties of undefined"⟩ w

/-! ## The module -/

/-- The function `validate` of `lib/index.js`. -/
def validate (streamObj replacements : JSValue) : JS Bool := do
  let mut valid := true
  if !(instanceofReadable streamObj) then
    consoleError "The first argument must be an instance of a Readable stream."
    valid := false
  if !(isArray replacements) then
    consoleError "The second argument must be a array."
    valid := false
  return valid

/-- The arrow function `err => { ... }` registered by `replace` on the
`error` event of the child process. -/
def replaceProcessError (err : JSError) : JS Unit := do
  consoleError ("\n" ++ err.toString)
  processExit 1

/-- Calling a function value of the module with an error argument. -/
def Listener.call : Listener → JSError → JS Unit
  | .replaceProcessError => GoSearchReplace.replaceProcessError

/-- The function `replace` of `lib/index.js`. -/
def replace (streamObj replacements : JSValue) : JS JSValue := do
  let valid ← validate streamObj replacements
  if !valid then
    processExit 1
  let replaceProcess ← spawn "go-search-replace" replacements [.pipe, .pipe, .processStderr]
  replaceProcess.on "error" .replaceProcessError
  pipe streamObj replaceProcess.stdin
  let streamObj := replaceProcess.stdout
  return streamObj

/-! ## Sample values, as in the test suite of the package -/

/-- The value `readableStream` of the test suite: a `Readable`. -/
def readableStream : JSValue := .object 0 readableChain .returns

/-- The value `writeableStream` of the test suite: a `Writable`, on which a
call of `pipe` fails. -/
def writeableStream : JSValue :=
  .object 1 writableChain (.throws ⟨"Error [ERR_STREAM_CANNOT_PIPE]: Cannot pipe, not readable"⟩)

/-- The value `new Set( [ ... ] )` of the test suite. -/
def setValue : JSValue :=
  .object 2 setChain (.throws ⟨"TypeError: streamObj.pipe is not a function"⟩)

/-- The value `Object.create( Readable.prototype )`: an instance of `Readable`
whose constructor never ran, so that `Readable.prototype.pipe` throws on it. -/
def bareReadable : JSValue :=
  .object 3 readableChain (.throws ⟨"TypeError: Cannot read properties of undefined"⟩)

/-- A world in which the sample objects exist and nothing has happened. -/
def testWorld : World := { nextId := 4, trace := [] }

/-- The child process handle that `spawn`, asked for two pipes, creates in
world `w` when nothing fails. -/
def pipedChild (w : World) : ChildProcess :=
  { id := w.nextId
    stdin := .object (w.nextId + 1) socketChain .returns
    stdout := .object (w.nextId + 2) socketChain .returns }

/-! ## Basic facts -/

theorem isArray_iff (v : JSValue) : isArray v = true ↔ ∃ items, v = .array items := by
  cases v <;> simp [isArray]

theorem validate_eq (streamObj replacements : JSValue) (w : World) :
    validate streamObj replacements w =
      .ok (instanceofReadable streamObj && isArray replacements)
        { w with
          trace := w.trace
            ++ (if instanceofReadable streamObj then []
                else [.consoleError "The first argument must be an instance of a Readable stream."])
            ++ (if isArray replacements then []
                else [.consoleError "The second argument must be a array."]) } := by
  cases h1 : instanceofReadable streamObj <;> cases h2 : isArray replacements <;>
    simp [validate, h1, h2, consoleError, World.emit, bind, JS.bind, pure]

/-- The diagnostics `validate` writes, in order. -/
theorem validate_effects (streamObj replacements : JSValue) (w : World) :
    effectsOf (validate streamObj replacements) w =
      (if instanceofReadable streamObj then []
        else [.consoleError "The first argument must be an instance of a Readable stream."])
      ++ (if isArray replacements then []
        else [.consoleError "The second argument must be a array."]) := by
  simp [effectsOf, validate_eq, Result.world, List.append_assoc]

/-- On a valid input `validate` changes nothing. -/
theorem validate_valid (streamObj replacements : JSValue) (w : World)
    (h1 : instanceofReadable streamObj = true) (h2 : isArray replacements = true) :
    validate streamObj replacements w = .ok true w := by
  simp [validate_eq, h1, h2]

/-- What `replace` does when `validate` answers `false`. -/
theorem replace_invalid (streamObj replacements : JSValue) (w : World)
    (h : (instanceofReadable streamObj && isArray replacements) = false) :
    replace streamObj replacements w =
      .exit 1 ((validate streamObj replacements w).world.emit (.processExit 1)) := by
  simp [replace, bind, JS.bind, validate_eq, h, processExit, Result.world]

/-- The effects of `replace` on an invalid input. -/
theorem replace_invalid_effects (streamObj replacements : JSValue) (w : World)
    (h : (instanceofReadable streamObj && isArray replacements) = false) :
    effectsOf (replace streamObj replacements) w =
      effectsOf (validate streamObj replacements) w ++ [.processExit 1] := by
  rw [validate_effects]
  simp [effectsOf, replace_invalid, h, validate_eq, Result.world, World.emit,
    List.append_assoc]

/-- On a valid input, `replace` is the part of its body after the check. -/
theorem replace_valid_eq (streamObj replacements : JSValue) (w : World)
    (h1 : instanceofReadable streamObj = true) (h2 : isArray replacements = true) :
    replace streamObj replacements w =
      match spawn "go-search-replace" replacements [.pipe, .pipe, .processStderr] w with
      | .ok child w1 =>
        (match pipe streamObj child.stdin (w1.emit (.on child.id "error" .replaceProcessError)) with
          | .ok _ w2 => .ok child.stdout w2
          | .exit c w2 => .exit c w2
          | .throw err w2 => .throw err w2)
      | .exit c w1 => .exit c w1
      | .throw err w1 => .throw err w1 := by
  simp only [replace, bind, JS.bind, validate_valid _ _ _ h1 h2, ChildProcess.on, pure,
    Bool.not_true, Bool.false_eq_true, if_false]
  generalize spawn "go-search-replace" replacements [.pipe, .pipe, .processStderr] w = r
  cases r with
  | ok child w1 =>
    dsimp only
    generalize pipe streamObj child.stdin
      (w1.emit (.on child.id "error" .replaceProcessError)) = r2
    cases r2 <;> rfl
  | exit c w1 => rfl
  | throw err w1 => rfl

/-- The call of `spawn` made by `replace`, when nothing fails. -/
theorem spawn_ok (args : JSValue) (w : World)
    (hs : spawnArgsError args = none) (hw : w.spawnFault = none) :
    spawn "go-search-replace" args [.pipe, .pipe, .processStderr] w =
      .ok (pipedChild w)
        { w with nextId := w.nextId + 3
                 trace := w.trace ++
                   [.spawn "go-search-replace" args [.pipe, .pipe, .processStderr]
                     (pipedChild w)] } := by
  simp [spawn, hs, hw, pipedChild]

/-- When `spawn` refuses the arguments, `replace` throws and does nothing. -/
theorem replace_args_refused (streamObj replacements : JSValue) (w : World) (err : JSError)
    (h1 : instanceofReadable streamObj = true) (h2 : isArray replacements = true)
    (hs : spawnArgsError replacements = some err) :
    replace streamObj replacements w = .throw err w := by
  rw [replace_valid_eq _ _ _ h1 h2]
  simp [spawn, hs]

/-- What `replace` does when nothing fails. -/
theorem replace_valid (streamObj replacements : JSValue) (w : World)
    (h1 : instanceofReadable streamObj = true) (h2 : isArray replacements = true)
    (hs : spawnArgsError replacements = none) (hw : w.spawnFault = none)
    (hp : pipeError streamObj = none) :
    replace streamObj replacements w =
      .ok (pipedChild w).stdout
        { w with nextId := w.nextId + 3
                 trace := w.trace ++
                   [ .spawn "go-search-replace" replacements [.pipe, .pipe, .processStderr]
                       (pipedChild w),
                     .on (pipedChild w).id "error" .replaceProcessError,
                     .pipe streamObj (pipedChild w).stdin ] } := by
  rw [replace_valid_eq _ _ _ h1 h2, spawn_ok _ _ hs hw]
  simp [pipe, hp, pipedChild, World.emit]

/-- The effects of `replace` when nothing fails. -/
theorem replace_valid_effects (streamObj replacements : JSValue) (w : World)
    (h1 : instanceofReadable streamObj = true) (h2 : isArray replacements = true)
    (hs : spawnArgsError replacements = none) (hw : w.spawnFault = none)
    (hp : pipeError streamObj = none) :
    effectsOf (replace streamObj replacements) w =
      [ .spawn "go-search-replace" replacements [.pipe, .pipe, .processStderr]
          (pipedChild w),
        .on (pipedChild w).id "error" .replaceProcessError,
        .pipe streamObj (pipedChild w).stdin ] := by
  simp [effectsOf, replace_valid _ _ _ h1 h2 hs hw hp, Result.world]

/-- What `replace` does when the `pipe` call throws after a successful
`spawn`. -/
theorem replace_pipe_throws (streamObj replacements : JSValue) (w : World) (err : JSError)
    (h1 : instanceofReadable streamObj = true) (h2 : isArray replacements = true)
    (hs : spawnArgsError replacements = none) (hw : w.spawnFault = none)
    (hp : pipeError streamObj = some err) :
    replace streamObj replacements w =
      .throw err
        { w with nextId := w.nextId + 3
                 trace := w.trace ++
                   [ .spawn "go-search-replace" replacements [.pipe, .pipe, .processStderr]
                       (pipedChild w),
                     .on (pipedChild w).id "error" .replaceProcessError ] } := by
  rw [replace_valid_eq _ _ _ h1 h2, spawn_ok _ _ hs hw]
  simp [pipe, hp, pipedChild, World.emit]

/-- The two outcomes of a call of `spawn`: it throws and changes nothing, or it
returns a handle and records the call. -/
theorem spawn_cases (command : String) (args : JSValue) (stdio : List StdioOption)
    (w : World) :
    (∃ err, spawn command args stdio w = .throw err w) ∨
    (∃ child w1, spawn command args stdio w = .ok child w1 ∧
      w1.trace = w.trace ++ [.spawn command args stdio child]) := by
  unfold spawn
  cases spawnArgsError args with
  | some err => exact Or.inl ⟨err, rfl⟩
  | none =>
    cases hf : w.spawnFault with
    | none => exact Or.inr ⟨_, _, rfl, rfl⟩
    | some fault =>
      cases fault with
      | throws err => exact Or.inl ⟨err, rfl⟩
      | noStreams => exact Or.inr ⟨_, _, rfl, rfl⟩

/-- The two outcomes of a call of `pipe`: it throws and changes nothing, or it
returns and records the call. -/
theorem pipe_cases (source destination : JSValue) (w : World) :
    (∃ err, pipe source destination w = .throw err w) ∨
    pipe source destination w = .ok () (w.emit (.pipe source destination)) := by
  unfold pipe
  cases pipeError source with
  | some err => exact Or.inl ⟨err, rfl⟩
  | none =>
    cases destination with
    | object id chain method => exact Or.inr rfl
    | _ => exact Or.inl ⟨_, rfl⟩

/-- The three runs of `replace` on a valid input: `spawn` throws; `spawn`
returns and `pipe` throws; both return. -/
theorem replace_valid_cases (streamObj replacements : JSValue) (w : World)
    (h1 : instanceofReadable streamObj = true) (h2 : isArray replacements = true) :
    (∃ err,
      spawn "go-search-replace" replacements [.pipe, .pipe, .processStderr] w = .throw err w ∧
      replace streamObj replacements w = .throw err w) ∨
    (∃ child w1,
      spawn "go-search-replace" replacements [.pipe, .pipe, .processStderr] w = .ok child w1 ∧
      ((∃ err w2, replace streamObj replacements w = .throw err w2 ∧
          w2.trace = w.trace ++
            [ .spawn "go-search-replace" replacements [.pipe, .pipe, .processStderr] child,
              .on child.id "error" .replaceProcessError ]) ∨
       (∃ w2, replace streamObj replacements w = .ok child.stdout w2 ∧
          w2.trace = w.trace ++
            [ .spawn "go-search-replace" replacements [.pipe, .pipe, .processStderr] child,
              .on child.id "error" .replaceProcessError,
              .pipe streamObj child.stdin ]))) := by
  rw [replace_valid_eq _ _ _ h1 h2]
  rcases spawn_cases "go-search-replace" replacements [.pipe, .pipe, .processStderr] w with
    ⟨err, hs⟩ | ⟨child, w1, hs, ht⟩
  · exact Or.inl ⟨err, hs, by rw [hs]⟩
  · refine Or.inr ⟨child, w1, hs, ?_⟩
    rw [hs]
    rcases pipe_cases streamObj child.stdin
        (w1.emit (.on child.id "error" .replaceProcessError)) with ⟨err, hp⟩ | hp
    · refine Or.inl ⟨err, _, by dsimp only; rw [hp], ?_⟩
      simp [World.emit, ht]
    · refine Or.inr ⟨_, by dsimp only; rw [hp], ?_⟩
      simp [World.emit, ht]

/-- The effects of a run, from the trace it ends with. -/
theorem effectsOf_eq {α : Type} (m : JS α) (w : World) (added : List Effect)
    (h : (m w).world.trace = w.trace ++ added) : effectsOf m w = added := by
  simp [effectsOf, h]

/-- Once `spawn` has returned a handle, the effects of `replace` hold that one
`spawn` and one registration, on the `error` event of the handle. -/
theorem replace_effects_of_spawn_ok (streamObj replacements : JSValue) (w : World)
    (child : ChildProcess)
    (h1 : instanceofReadable streamObj = true) (h2 : isArray replacements = true)
    (hs : (spawn "go-search-replace" replacements [.pipe, .pipe, .processStderr] w).value?
      = some child) :
    (effectsOf (replace streamObj replacements) w).filter Effect.isSpawn =
      [.spawn "go-search-replace" replacements [.pipe, .pipe, .processStderr] child] ∧
    (effectsOf (replace streamObj replacements) w).filter Effect.isOn =
      [.on child.id "error" .replaceProcessError] ∧
    (effectsOf (replace streamObj replacements) w).filter Effect.isPipe =
      (if (replace streamObj replacements w).value?.isNone then []
        else [.pipe streamObj child.stdin]) := by
  rcases replace_valid_cases streamObj replacements w h1 h2 with
    ⟨err, hsp, _⟩ | ⟨c, w1, hsp, hr⟩
  · rw [hsp] at hs
    simp [Result.value?] at hs
  · rw [hsp] at hs
    simp only [Result.value?, Option.some.injEq] at hs
    subst hs
    rcases hr with ⟨err, w2, hr, ht⟩ | ⟨w2, hr, ht⟩
    · have he := effectsOf_eq (replace streamObj replacements) w _ (by rw [hr]; exact ht)
      rw [he, hr]
      simp [Effect.isSpawn, Effect.isOn, Effect.isPipe, Result.value?]
    · have he := effectsOf_eq (replace streamObj replacements) w _ (by rw [hr]; exact ht)
      rw [he, hr]
      simp [Effect.isSpawn, Effect.isOn, Effect.isPipe, Result.value?]

/-- When nothing fails, `spawn` returns the handle `pipedChild`. -/
theorem spawn_value (args : JSValue) (w : World)
    (hs : spawnArgsError args = none) (hw : w.spawnFault = none) :
    (spawn "go-search-replace" args [.pipe, .pipe, .processStderr] w).value?
      = some (pipedChild w) := by
  rw [spawn_ok _ _ hs hw]
  rfl

/-! ## The validator -/

/-- C1: `validate` always returns, and it returns `true` exactly when the first
argument is an instance of `Readable` and the second is an array; for a given
first argument the answer is the same for every array, whatever it holds. -/
theorem validate_true_iff (streamObj replacements : JSValue) (w : World) :
    (∃ b, (validate streamObj replacements w).value? = some b) ∧
    ((validate streamObj replacements w).value? = some true ↔
      instanceofReadable streamObj = true ∧ ∃ items, replacements = .array items) ∧
    (∀ items other : List JSValue,
      (validate streamObj (.array items) w).value? =
        (validate streamObj (.array other) w).value?) := by
  refine ⟨⟨_, by rw [validate_eq]; rfl⟩, ?_, ?_⟩
  · rw [validate_eq, ← isArray_iff]
    simp [Result.value?]
  · intro items other
    simp [validate_eq, Result.value?, isArray]

/-- Instance of C1 on the inputs of the test suite: a readable stream with the
array holding `thing`, and with the empty array. -/
theorem validate_true_iff_witness :
    (validate readableStream (.array [.string "thing"]) testWorld).value? = some true ∧
    (validate readableStream (.array []) testWorld).value? = some true :=
  ⟨(validate_true_iff readableStream (.array [.string "thing"]) testWorld).2.1.mpr
      ⟨by decide, _, rfl⟩,
   (validate_true_iff readableStream (.array []) testWorld).2.1.mpr ⟨by decide, _, rfl⟩⟩

/-- C6: when the first argument is not an instance of `Readable`, `validate`
returns `false` for every second argument. -/
theorem validate_false_of_not_readable (streamObj replacements : JSValue) (w : World)
    (h : instanceofReadable streamObj = false) :
    (validate streamObj replacements w).value? = some false := by
  simp [validate_eq, Result.value?, h]

/-- Instance of C6: a `Writable` with a valid array, as in the test suite. -/
theorem validate_false_of_not_readable_witness :
    instanceofReadable writeableStream = false ∧
    (validate writeableStream (.array [.string "thing"]) testWorld).value? = some false :=
  ⟨by decide,
   validate_false_of_not_readable writeableStream (.array [.string "thing"]) testWorld
     (by decide)⟩

/-- C7: when the second argument is not an array, `validate` returns `false`
for every first argument. -/
theorem validate_false_of_not_array (streamObj replacements : JSValue) (w : World)
    (h : ∀ items, replacements ≠ .array items) :
    (validate streamObj replacements w).value? = some false := by
  have h2 : isArray replacements = false := by
    cases hr : isArray replacements
    · rfl
    · obtain ⟨items, hi⟩ := (isArray_iff replacements).mp hr
      exact absurd hi (h items)
  simp [validate_eq, Result.value?, h2]

/-- Instance of C7: a readable stream with a string, with a number and with a
`Set`, as in the test suite. -/
theorem validate_false_of_not_array_witness :
    (validate readableStream (.string "replace-string") testWorld).value? = some false ∧
    (validate readableStream (.number 234) testWorld).value? = some false ∧
    (validate readableStream setValue testWorld).value? = some false :=
  ⟨validate_false_of_not_array readableStream (.string "replace-string") testWorld
     (fun _ h => JSValue.noConfusion h),
   validate_false_of_not_array readableStream (.number 234) testWorld
     (fun _ h => JSValue.noConfusion h),
   validate_false_of_not_array readableStream setValue testWorld
     (fun _ h => JSValue.noConfusion h)⟩

/-- C8: the diagnostics of `validate` are the first-argument message exactly
when the first argument is not a `Readable`, followed by the second-argument
message exactly when the second argument is not an array; their number is the
number of violated constraints; both checks run, so two invalid arguments give
the two messages; and `validate` returns `true` exactly when it wrote none. -/
theorem validate_diagnostics (streamObj replacements : JSValue) (w : World) :
    effectsOf (validate streamObj replacements) w =
      (if instanceofReadable streamObj = true then []
        else [.consoleError "The first argument must be an instance of a Readable stream."])
      ++ (if isArray replacements = true then []
        else [.consoleError "The second argument must be a array."]) ∧
    (effectsOf (validate streamObj replacements) w).length =
      (if instanceofReadable streamObj = true then 0 else 1)
        + (if isArray replacements = true then 0 else 1) ∧
    (instanceofReadable streamObj = false → isArray replacements = false →
      effectsOf (validate streamObj replacements) w =
        [ .consoleError "The first argument must be an instance of a Readable stream.",
          .consoleError "The second argument must be a array." ]) ∧
    ((validate streamObj replacements w).value? = some true ↔
      effectsOf (validate streamObj replacements) w = []) ∧
    (validate streamObj replacements w).world.nextId = w.nextId := by
  rw [validate_effects, validate_eq]
  cases h1 : instanceofReadable streamObj <;> cases h2 : isArray replacements <;>
    simp [Result.value?, Result.world]

/-- Instance of C8: a `Writable` with a string gives the two messages, in
order, and the answer `false`. -/
theorem validate_diagnostics_witness :
    effectsOf (validate writeableStream (.string "replace-string")) testWorld =
      [ .consoleError "The first argument must be an instance of a Readable stream.",
        .consoleError "The second argument must be a array." ] :=
  (validate_diagnostics writeableStream (.string "replace-string") testWorld).2.2.1
    (by decide) (by decide)

/-! ## The orchestrator -/

/-- C2: whenever `validate` returns `false`, `replace` performs the diagnostics
of `validate` and then `process.exit( 1 )`, and nothing else: no `spawn`, no
`pipe`, no object created, no value returned, exit status 1. -/
theorem replace_exits_when_invalid (streamObj replacements : JSValue) (w : World)
    (h : (validate streamObj replacements w).value? = some false) :
    (replace streamObj replacements w).exitCode? = some 1 ∧
    (replace streamObj replacements w).value? = none ∧
    effectsOf (replace streamObj replacements) w =
      effectsOf (validate streamObj replacements) w ++ [.processExit 1] ∧
    (effectsOf (replace streamObj replacements) w).filter Effect.isSpawn = [] ∧
    (effectsOf (replace streamObj replacements) w).filter Effect.isPipe = [] ∧
    (replace streamObj replacements w).world.nextId = w.nextId := by
  have hv : (instanceofReadable streamObj && isArray replacements) = false := by
    simpa [validate_eq, Result.value?] using h
  rw [replace_invalid_effects _ _ _ hv, validate_effects, replace_invalid _ _ _ hv,
    validate_eq]
  cases h1 : instanceofReadable streamObj <;> cases h2 : isArray replacements <;>
    simp [Result.exitCode?, Result.value?, Result.world, World.emit, Effect.isSpawn,
      Effect.isPipe]

/-- Instance of C2: a `Writable` first argument with a valid array. -/
theorem replace_exits_when_invalid_witness :
    (validate writeableStream (.array [.string "thing"]) testWorld).value? = some false ∧
    (replace writeableStream (.array [.string "thing"]) testWorld).exitCode? = some 1 ∧
    (effectsOf (replace writeableStream (.array [.string "thing"])) testWorld).filter
      Effect.isSpawn = [] :=
  ⟨by decide,
   (replace_exits_when_invalid writeableStream (.array [.string "thing"]) testWorld
      (by decide)).1,
   (replace_exits_when_invalid writeableStream (.array [.string "thing"]) testWorld
      (by decide)).2.2.2.1⟩

/-- C3, as stated, fails: on the readable stream of the test suite and an array
whose one token holds the character of code 0, `validate` returns `true`, the
call of `spawn` throws, and `replace` spawns nothing and throws. -/
theorem replace_spawns_nothing_on_null_byte :
    (validate readableStream (.array [.string "a\x00b"]) testWorld).value? = some true ∧
    (effectsOf (replace readableStream (.array [.string "a\x00b"])) testWorld).filter
      Effect.isSpawn = [] ∧
    (replace readableStream (.array [.string "a\x00b"]) testWorld).thrown?.isSome = true ∧
    ¬ ∃ child : ChildProcess,
      (effectsOf (replace readableStream (.array [.string "a\x00b"])) testWorld).filter
          Effect.isSpawn =
        [.spawn "go-search-replace" (.array [.string "a\x00b"])
          [.pipe, .pipe, .processStderr] child] := by
  have hr := replace_args_refused readableStream (.array [.string "a\x00b"]) testWorld
    ⟨"TypeError [ERR_INVALID_ARG_VALUE]: args must be strings without null bytes"⟩
    (by decide) rfl (by decide)
  have he : effectsOf (replace readableStream (.array [.string "a\x00b"])) testWorld = [] :=
    effectsOf_eq _ _ _ (by rw [hr]; simp [Result.world])
  refine ⟨by decide, by rw [he]; rfl, by rw [hr]; rfl, ?_⟩
  rw [he]
  simp

/-- C3, amended: on a readable stream and an array that `spawn` accepts, in an
environment that does not make `spawn` fail at once, `replace` calls `spawn`
exactly once, with the command `go-search-replace` and with the array it was
given as the argument list. -/
theorem replace_spawns_once (streamObj : JSValue) (items : List JSValue) (w : World)
    (h : instanceofReadable streamObj = true)
    (hs : spawnArgsError (.array items) = none) (hw : w.spawnFault = none) :
    (effectsOf (replace streamObj (.array items)) w).filter Effect.isSpawn =
      [.spawn "go-search-replace" (.array items) [.pipe, .pipe, .processStderr]
        (pipedChild w)] :=
  (replace_effects_of_spawn_ok streamObj (.array items) w (pipedChild w) h rfl
    (spawn_value _ w hs hw)).1

/-- Instance of the amended C3: two tokens, in their order. -/
theorem replace_spawns_once_witness :
    (effectsOf (replace readableStream
        (.array [.string "example.com", .string "example.org"])) testWorld).filter
        Effect.isSpawn =
      [.spawn "go-search-replace" (.array [.string "example.com", .string "example.org"])
        [.pipe, .pipe, .processStderr] (pipedChild testWorld)] :=
  replace_spawns_once readableStream [.string "example.com", .string "example.org"]
    testWorld (by decide) (by decide) rfl

/-- C4, as stated, fails: on `Object.create( Readable.prototype )`, which is an
instance of `Readable`, and the array holding `thing`, the call of `pipe`
throws after the `spawn`, and `replace` returns nothing. -/
theorem replace_throws_on_bare_readable :
    (validate bareReadable (.array [.string "thing"]) testWorld).value? = some true ∧
    bareReadable.existsIn testWorld = true ∧
    (replace bareReadable (.array [.string "thing"]) testWorld).value? = none ∧
    (replace bareReadable (.array [.string "thing"]) testWorld).thrown?.isSome = true ∧
    ¬ ∃ child : ChildProcess,
      (replace bareReadable (.array [.string "thing"]) testWorld).value?
        = some child.stdout := by
  have hr := replace_pipe_throws bareReadable (.array [.string "thing"]) testWorld
    ⟨"TypeError: Cannot read properties of undefined"⟩ (by decide) rfl (by decide) rfl rfl
  refine ⟨by decide, by decide, by rw [hr]; rfl, by rw [hr]; rfl, ?_⟩
  rw [hr]
  simp [Result.value?]

/-- C4, amended: on a readable stream that exists and on which a call of `pipe`
returns, and an array (empty or not) that `spawn` accepts, in an environment
that does not make `spawn` fail at once, `replace` returns the `stdout` of the
one child process it spawned; that value is an instance of `Readable` and is
not the stream that was passed in. -/
theorem replace_returns_stdout (streamObj : JSValue) (items : List JSValue) (w : World)
    (h : instanceofReadable streamObj = true) (hex : streamObj.existsIn w = true)
    (hp : pipeError streamObj = none)
    (hs : spawnArgsError (.array items) = none) (hw : w.spawnFault = none) :
    ∃ child : ChildProcess,
      (effectsOf (replace streamObj (.array items)) w).filter Effect.isSpawn =
        [.spawn "go-search-replace" (.array items) [.pipe, .pipe, .processStderr] child] ∧
      (replace streamObj (.array items) w).value? = some child.stdout ∧
      instanceofReadable child.stdout = true ∧
      child.stdout ≠ streamObj := by
  refine ⟨pipedChild w, ?_, ?_, ?_, ?_⟩
  · rw [replace_valid_effects streamObj (.array items) w h rfl hs hw hp]
    simp [Effect.isSpawn]
  · rw [replace_valid streamObj (.array items) w h rfl hs hw hp]
    rfl
  · simp [pipedChild, instanceofReadable, socketChain]
  · intro heq
    subst heq
    simp [JSValue.existsIn, pipedChild] at hex

/-- Instance of the amended C4: the readable stream of the test suite and the
empty array. -/
theorem replace_returns_stdout_witness :
    ∃ child : ChildProcess,
      (effectsOf (replace readableStream (.array [])) testWorld).filter Effect.isSpawn =
        [.spawn "go-search-replace" (.array []) [.pipe, .pipe, .processStderr] child] ∧
      (replace readableStream (.array []) testWorld).value? = some child.stdout ∧
      instanceofReadable child.stdout = true ∧
      child.stdout ≠ readableStream :=
  replace_returns_stdout readableStream [] testWorld (by decide) (by decide) rfl
    (by decide) rfl

/-- C5: on a readable stream and an array, whenever the call of `spawn` returns
a child process, `replace` has spawned that child only and registers exactly
one listener, on its `error` event; called with any error value, in any world,
that listener writes a newline followed by the error text to `console.error`
and then exits the process with status 1. -/
theorem replace_error_listener (streamObj : JSValue) (items : List JSValue) (w : World)
    (child : ChildProcess) (err : JSError) (later : World)
    (h : instanceofReadable streamObj = true)
    (hs : (spawn "go-search-replace" (.array items) [.pipe, .pipe, .processStderr] w).value?
      = some child) :
    ∃ listener : Listener,
      (effectsOf (replace streamObj (.array items)) w).filter Effect.isSpawn =
        [.spawn "go-search-replace" (.array items) [.pipe, .pipe, .processStderr] child] ∧
      (effectsOf (replace streamObj (.array items)) w).filter Effect.isOn =
        [.on child.id "error" listener] ∧
      listener.call err later =
        .exit 1 { later with
                  trace := later.trace ++
                    [.consoleError ("\n" ++ err.toString), .processExit 1] } := by
  have he := replace_effects_of_spawn_ok streamObj (.array items) w child h rfl hs
  refine ⟨.replaceProcessError, he.1, he.2.1, ?_⟩
  simp [Listener.call, replaceProcessError, bind, JS.bind, consoleError, processExit,
    World.emit]

/-- Instance of C5: the executable is missing. -/
theorem replace_error_listener_witness :
    ∃ listener : Listener,
      (effectsOf (replace readableStream (.array [.string "thing"])) testWorld).filter
          Effect.isSpawn =
        [.spawn "go-search-replace" (.array [.string "thing"])
          [.pipe, .pipe, .processStderr] (pipedChild testWorld)] ∧
      (effectsOf (replace readableStream (.array [.string "thing"])) testWorld).filter
          Effect.isOn = [.on (pipedChild testWorld).id "error" listener] ∧
      listener.call ⟨"Error: spawn go-search-replace ENOENT"⟩ testWorld =
        .exit 1 { testWorld with
                  trace := testWorld.trace ++
                    [.consoleError ("\n" ++ "Error: spawn go-search-replace ENOENT"),
                     .processExit 1] } :=
  replace_error_listener readableStream [.string "thing"] testWorld (pipedChild testWorld)
    ⟨"Error: spawn go-search-replace ENOENT"⟩ testWorld (by decide) rfl

/-- The wiring step of `replace`: once `spawn` has returned a child, `replace`
makes at most one `pipe` call, from the stream passed in to the `stdin` of that
child, and exactly one when it returns. -/
theorem replace_pipes_once (streamObj : JSValue) (items : List JSValue) (w : World)
    (child : ChildProcess) (h : instanceofReadable streamObj = true)
    (hs : (spawn "go-search-replace" (.array items) [.pipe, .pipe, .processStderr] w).value?
      = some child) :
    (effectsOf (replace streamObj (.array items)) w).filter Effect.isPipe =
      (if (replace streamObj (.array items) w).value?.isNone then []
        else [.pipe streamObj child.stdin]) :=
  (replace_effects_of_spawn_ok streamObj (.array items) w child h rfl hs).2.2

/-- C10: every execution of `replace` has one of four shapes. `validate`
returned `false`: the effects are its diagnostics followed by the exit, and no
value is returned. Or `validate` returned `true` and: the call of `spawn`
threw, nothing was done and no value is returned; or the effects are the
`spawn` then the registration of the `error` listener on the child, the call of
`pipe` threw and no value is returned; or the effects are, in this order, the
`spawn`, the registration and the `pipe` of the input stream into the child,
and the `stdout` of the child is returned. So a `pipe` comes only after a
`validate` that returned `true`, a `spawn` and a registration, and a value is
returned only after the three. -/
theorem replace_effect_order (streamObj replacements : JSValue) (w : World) :
    ((validate streamObj replacements w).value? = some false ∧
      effectsOf (replace streamObj replacements) w =
        effectsOf (validate streamObj replacements) w ++ [.processExit 1] ∧
      (effectsOf (validate streamObj replacements) w).all Effect.isConsoleError = true ∧
      (replace streamObj replacements w).value? = none) ∨
    ((validate streamObj replacements w).value? = some true ∧
      ((effectsOf (replace streamObj replacements) w = [] ∧
          (replace streamObj replacements w).value? = none ∧
          (replace streamObj replacements w).thrown?.isSome = true) ∨
       ∃ child : ChildProcess,
        (effectsOf (replace streamObj replacements) w =
            [ .spawn "go-search-replace" replacements [.pipe, .pipe, .processStderr] child,
              .on child.id "error" .replaceProcessError ] ∧
          (replace streamObj replacements w).value? = none ∧
          (replace streamObj replacements w).thrown?.isSome = true) ∨
        (effectsOf (replace streamObj replacements) w =
            [ .spawn "go-search-replace" replacements [.pipe, .pipe, .processStderr] child,
              .on child.id "error" .replaceProcessError,
              .pipe streamObj child.stdin ] ∧
          (replace streamObj replacements w).value? = some child.stdout))) := by
  cases h1 : instanceofReadable streamObj <;> cases h2 : isArray replacements
  case true.true =>
    right
    refine ⟨by simp [validate_eq, Result.value?, h1, h2], ?_⟩
    rcases replace_valid_cases streamObj replacements w h1 h2 with
      ⟨err, _, hr⟩ | ⟨child, w1, _, ⟨err, w2, hr, ht⟩ | ⟨w2, hr, ht⟩⟩
    · left
      have he := effectsOf_eq (replace streamObj replacements) w []
        (by rw [hr]; simp [Result.world])
      exact ⟨he, by rw [hr]; rfl, by rw [hr]; rfl⟩
    · right
      have he := effectsOf_eq (replace streamObj replacements) w _ (by rw [hr]; exact ht)
      exact ⟨child, Or.inl ⟨he, by rw [hr]; rfl, by rw [hr]; rfl⟩⟩
    · right
      have he := effectsOf_eq (replace streamObj replacements) w _ (by rw [hr]; exact ht)
      exact ⟨child, Or.inr ⟨he, by rw [hr]; rfl⟩⟩
  all_goals
    left
    have hv : (instanceofReadable streamObj && isArray replacements) = false := by
      simp [h1, h2]
    refine ⟨by simp [validate_eq, Result.value?, h1, h2],
      replace_invalid_effects _ _ _ hv, ?_, ?_⟩
    · rw [validate_effects]
      simp [h1, h2, Effect.isConsoleError]
    · rw [replace_invalid _ _ _ hv]
      rfl

end GoSearchReplace
